import Mathlib

/-!
Verification development for the xsessiond window/process association daemon.

The Rust sources are shallowly embedded:
* `src/info.rs` — `WindowInfo`, `ProcessInfo`, and the association store
  `ProcessesWindowsInfo` with its `insert`/`remove` operations.  The Rust
  `HashMap<ProcessInfo, HashSet<WindowInfo>>` is modelled as an association
  list `List (ProcessInfo × List WindowInfo)`; a `HashSet` is a list into
  which an element is added only when absent (Rust `HashSet::insert` is a
  no-op on a present element), matching set semantics while staying fully
  computable.  The `sysinfo::System` process-table snapshot consulted by
  `insert`/`remove` is modelled as a function `ProcTable` from pid to the
  optional command line string (`None` = the process is absent from the
  refreshed snapshot).
* `src/x11_client.rs` — the metadata resolver `get_window_information` and
  its protocol round-trips.  Each round-trip's outcome is an input supplied
  by an `X11Env`; a Rust `unwrap()` of a failed reply, an out-of-range index
  and an `unwrap()` of an empty iterator are modelled by the distinguished
  `panicked` outcome.
* `src/application.rs` — `Application::run`: the `_NET_CLIENT_LIST` intern
  + `assert!` check, the bulk sync over the client list, and the event loop
  that re-reads the shared `is_running` flag once per iteration before
  blocking for the next event.  The successive values read from the flag and
  the successive results of `wait_for_event` are supplied as lists; when
  either list is exhausted while the loop still runs, the model returns the
  distinguished `blocked` outcome (the real loop would block indefinitely).
  The per-window store mutations performed by
  `set_window_information`/`delete_window_information` are parameters of the
  loop model, because those two functions as written do not type-check
  (they read fields directly off the `Result` returned by
  `get_window_information`); the store logic they duplicate is the one
  embedded from `src/info.rs`.
-/

/-- Struct `WindowInfo` from src/info.rs: one tracked window.  The Rust `u32`
fields carry no arithmetic, so they are modelled as `Nat`. -/
structure WindowInfo where
  window_name : String
  window_xid : Nat
  desktop_name : String
  desktop_number : Nat
deriving DecidableEq, Repr

/-- Struct `ProcessInfo` from src/info.rs: the process identity key
(command line + numeric pid). -/
structure ProcessInfo where
  cmdline : String
  process_id : Nat
deriving DecidableEq, Repr

/-- The association store: Rust `HashMap<ProcessInfo, HashSet<WindowInfo>>`
as an association list with set-valued entries. -/
abbrev Store : Type := List (ProcessInfo × List WindowInfo)

/-- Struct `X11WindowInformation` from src/x11_client.rs (the borrowed
`x11_window` handle is dropped; `x11_resource_id` is its resource id). -/
structure X11WindowInformation where
  x11_resource_id : Nat
  x11_window_name : String
  x11_desktop_number : Nat
  x11_desktop_name : String
  process_id : Nat
deriving DecidableEq, Repr

/-- A snapshot of the OS process table (`sysinfo::System` after
`refresh_processes`): pid ↦ command line of the live process, `none` when
the process does not exist in the snapshot. -/
abbrev ProcTable : Type := Nat → Option String

/-- Rust `HashMap::get` / `get_mut` on the association list: the value stored
under the first (and, for well-formed stores, only) matching key. -/
def storeGet (k : ProcessInfo) : Store → Option (List WindowInfo)
  | [] => none
  | (k₁, v) :: rest => if k₁ = k then some v else storeGet k rest

/-- In-place mutation through `HashMap::get_mut`: apply `f` to the value
stored under `k`, leaving every other entry untouched. -/
def storeModify (k : ProcessInfo) (f : List WindowInfo → List WindowInfo) :
    Store → Store
  | [] => []
  | (k₁, v) :: rest =>
      if k₁ = k then (k₁, f v) :: rest else (k₁, v) :: storeModify k f rest

/-- Rust `HashMap::remove` on the association list. -/
def storeRemoveKey (k : ProcessInfo) : Store → Store
  | [] => []
  | (k₁, v) :: rest =>
      if k₁ = k then rest else (k₁, v) :: storeRemoveKey k rest

/-- Rust `HashSet::insert`: adds the element only when it is absent
(structural equality over all four `WindowInfo` fields). -/
def hsInsert (w : WindowInfo) (s : List WindowInfo) : List WindowInfo :=
  if w ∈ s then s else w :: s

/-- The store-level half of `ProcessesWindowsInfo::insert`
(src/info.rs lines 73-82): the match on `self.procinfo.get_mut(&proc_info)`
— add to the existing set, or create a fresh singleton entry. -/
def storeInsert (window_info : WindowInfo) (proc_info : ProcessInfo)
    (store : Store) : Store :=
  match storeGet proc_info store with
  | some _ => storeModify proc_info (fun w_infos => hsInsert window_info w_infos) store
  | none => (proc_info, [window_info]) :: store

/-- The store-level half of `ProcessesWindowsInfo::remove`
(src/info.rs lines 98-109): `retain` the windows whose xid differs from the
given resource id, then delete the whole entry if the set became empty. -/
def storeRemove (resource_id : Nat) (proc_info : ProcessInfo)
    (store : Store) : Store :=
  match storeGet proc_info store with
  | some windows_of_process =>
      let retained :=
        windows_of_process.filter (fun window_info => window_info.window_xid != resource_id)
      let mutated := storeModify proc_info (fun _ => retained) store
      if retained.isEmpty then storeRemoveKey proc_info mutated else mutated
  | none => store

/-- Operation `ProcessesWindowsInfo::insert` (src/info.rs lines 56-86): refresh the
process table, look the window's pid up, and on success build the
`WindowInfo`/`ProcessInfo` pair and insert it; when the process is absent
the store is untouched. -/
def pwiInsert (table : ProcTable) (x : X11WindowInformation)
    (store : Store) : Store :=
  match table x.process_id with
  | some cmdline =>
      let window_info : WindowInfo :=
        ⟨x.x11_window_name, x.x11_resource_id, x.x11_desktop_name, x.x11_desktop_number⟩
      let proc_info : ProcessInfo := ⟨cmdline, x.process_id⟩
      storeInsert window_info proc_info store
  | none => store

/-- Operation `ProcessesWindowsInfo::remove` (src/info.rs lines 88-113). -/
def pwiRemove (table : ProcTable) (x : X11WindowInformation)
    (store : Store) : Store :=
  match table x.process_id with
  | some cmdline =>
      let proc_info : ProcessInfo := ⟨cmdline, x.process_id⟩
      storeRemove x.x11_resource_id proc_info store
  | none => store

/-- One completed store operation, carrying the process-table snapshot that
was current when `refresh_processes` ran inside it. -/
inductive StoreOp where
  | ins (table : ProcTable) (x : X11WindowInformation)
  | rem (table : ProcTable) (x : X11WindowInformation)

/-- Apply one completed operation to the store. -/
def applyOp (store : Store) : StoreOp → Store
  | .ins table x => pwiInsert table x store
  | .rem table x => pwiRemove table x store

/-- The store reached from the empty store by a sequence of completed
insert/remove operations. -/
def runOps (ops : List StoreOp) : Store :=
  ops.foldl applyOp []

/-! ## The X11 metadata resolver (src/x11_client.rs) -/

/-- Enum `GatherInfoErrorType` from src/x11_client.rs. -/
inductive GatherInfoErrorType where
  | WindowDesktopNumber
deriving DecidableEq, Repr

/-- Struct `GatherInfoError` from src/x11_client.rs. -/
structure GatherInfoError where
  err : GatherInfoErrorType
deriving DecidableEq, Repr

/-- Outcome of running a Rust function that may also `panic!` via a failed
`unwrap()` or an out-of-bounds index, in addition to returning a value or
an error. -/
inductive RunResult (α : Type) where
  | ok : α → RunResult α
  | err : GatherInfoError → RunResult α
  | panicked : RunResult α
deriving DecidableEq, Repr

/-- The replies the X11 connection produces for the resolver's four protocol
round-trips, indexed by window resource id where relevant.  `none` models a
reply the corresponding `wait_for_reply` call reports as an error. -/
structure X11Env where
  /-- `GetWmName` reply for a window: its `name` field. -/
  wmNameReply : Nat → Option String
  /-- `GetWmDesktop` reply for a window: its `desktop` field. -/
  wmDesktopReply : Nat → Option Nat
  /-- `GetDesktopNames` reply: its `names` field. -/
  desktopNamesReply : Option (List String)
  /-- `QueryClientIds` reply for a window: the pid values carried by its
  `ids()` iterator. -/
  clientIdsReply : Nat → Option (List Nat)

/-- Method `X11Client::get_window_name` (src/x11_client.rs lines 119-126): the
reply is `unwrap()`ed, so an errored exchange panics. -/
def get_window_name (env : X11Env) (window : Nat) : RunResult String :=
  match env.wmNameReply window with
  | some name => .ok name
  | none => .panicked

/-- Method `X11Client::get_desktop_number_of_window` (src/x11_client.rs lines
128-144): the only round-trip whose failure is converted into a
`GatherInfoError` instead of a panic. -/
def get_desktop_number_of_window (env : X11Env) (window : Nat) :
    Except GatherInfoError Nat :=
  match env.wmDesktopReply window with
  | some desktop => .ok desktop
  | none => .error ⟨.WindowDesktopNumber⟩

/-- Method `X11Client::get_desktop_name_of_window` (src/x11_client.rs lines
146-152): `unwrap()` of the reply and an unchecked index into `names`, both
of which panic on failure. -/
def get_desktop_name_of_window (env : X11Env) (number : Nat) :
    RunResult String :=
  match env.desktopNamesReply with
  | some names =>
      if h : number < names.length then .ok (names.get ⟨number, h⟩)
      else .panicked
  | none => .panicked

/-- Method `X11Client::get_process_id_of_local_client` (src/x11_client.rs lines
154-170): `pid_reply.unwrap().ids().next().unwrap().value()[0]` — a failed
exchange panics, and so does an empty id iterator. -/
def get_process_id_of_local_client (env : X11Env) (window : Nat) :
    RunResult Nat :=
  match env.clientIdsReply window with
  | some (pid :: _) => .ok pid
  | some [] => .panicked
  | none => .panicked

/-- Method `X11Client::get_window_information` (src/x11_client.rs lines 100-117):
first the desktop number (propagating its error), then — in the evaluation
order of the `X11WindowInformation::new` arguments — the window name, the
desktop name, and the owning pid. -/
def get_window_information (env : X11Env) (window : Nat) :
    RunResult X11WindowInformation :=
  match get_desktop_number_of_window env window with
  | .error e => .err e
  | .ok desktop_number =>
      match get_window_name env window with
      | .panicked => .panicked
      | .err e => .err e
      | .ok name =>
          match get_desktop_name_of_window env desktop_number with
          | .panicked => .panicked
          | .err e => .err e
          | .ok desktop_name =>
              match get_process_id_of_local_client env window with
              | .panicked => .panicked
              | .err e => .err e
              | .ok pid =>
                  .ok ⟨window, name, desktop_number, desktop_name, pid⟩

/-! ## The synchronization controller (src/application.rs) -/

/-- Enum `ApplicationErrorType` from src/application.rs. -/
inductive ApplicationErrorType where
  | X11Error
  | ConnectionError
  | ProtocolError
deriving DecidableEq, Repr

/-- Struct `ApplicationError` from src/application.rs: error kind plus the exit
code returned to the lifecycle boundary. -/
structure ApplicationError where
  kind : ApplicationErrorType
  retcode : Int
deriving DecidableEq, Repr

/-- The events `Application::run` dispatches on, with the window the event
carries where the loop uses it. -/
inductive XEvent where
  | createNotify (window : Nat)
  | destroyNotify (window : Nat)
  | propertyNotify
  | other
deriving DecidableEq, Repr

/-- One result of `wait_for_event` in the loop. -/
inductive WaitResult where
  | connectionError
  | protocolError
  | event (e : XEvent)
deriving DecidableEq, Repr

/-- What a call of `Application::run` can do: return `Ok(code)`, return
`Err(ApplicationError)`, die in a panic (failed `unwrap()`/`assert!`), or —
a model artifact — block forever because the supplied flag-read or event
lists ran out while the loop was still live. -/
inductive RunOutcome where
  | ok (code : Int)
  | err (e : ApplicationError)
  | panicked (msg : String)
  | blocked
deriving DecidableEq, Repr

/-- The event dispatch of the loop body (src/application.rs lines 104-115):
create inserts, destroy removes, property-change and any other event leave
the store alone.  `setw`/`delw` stand for
`set_window_information`/`delete_window_information`, passed as parameters
because those functions as written in src/application.rs do not type-check
(they read fields directly off an unhandled `Result`). -/
def handleEvent (setw delw : Nat → Store → Store) (store : Store) :
    XEvent → Store
  | .createNotify window => setw window store
  | .destroyNotify window => delw window store
  | .propertyNotify => store
  | .other => store

/-- The `while *self.is_running.lock().unwrap()` loop of `Application::run`
(src/application.rs lines 87-117).  `flags` lists the successive values the
loop reads from the shared flag, one read per iteration at the loop
boundary; `waits` lists the successive `wait_for_event` results.  The loop
returns `Ok(0)` as soon as a boundary read yields `false`, and turns a
connection (resp. protocol) error from the wait into `Err` with retcode 10
(resp. 11). -/
def runLoop (setw delw : Nat → Store → Store) :
    List Bool → List WaitResult → Store → RunOutcome × Store
  | [], _, store => (.blocked, store)
  | false :: _, _, store => (.ok 0, store)
  | true :: _, [], store => (.blocked, store)
  | true :: flags, w :: waits, store =>
      match w with
      | .connectionError => (.err ⟨.ConnectionError, 10⟩, store)
      | .protocolError => (.err ⟨.ProtocolError, 11⟩, store)
      | .event e => runLoop setw delw flags waits (handleEvent setw delw store e)

/-- The atom value `xcb::x::ATOM_NONE`. -/
def ATOM_NONE : Nat := 0

/-- Method `Application::run` (src/application.rs lines 46-118): intern the
`_NET_CLIENT_LIST` atom (`unwrap()` of an errored reply panics), `assert!`
that it is not `ATOM_NONE` (panicking with "EWMH not supported" otherwise),
bulk-sync by calling `set_window_information` on every enumerated client
(`clients` abstracts the per-screen `GetProperty` enumeration of lines
60-85), then enter the event loop. -/
def Application.run (setw delw : Nat → Store → Store)
    (atomReply : Option Nat) (clients : List Nat)
    (flags : List Bool) (waits : List WaitResult)
    (store : Store) : RunOutcome × Store :=
  match atomReply with
  | none => (.panicked "called unwrap on an Err value", store)
  | some wm_client_list =>
      if wm_client_list = ATOM_NONE then (.panicked "EWMH not supported", store)
      else
        let synced := clients.foldl (fun s client => setw client s) store
        runLoop setw delw flags waits synced

/-- How many times a window resource id occurs across all window sets of
the store (counting multiplicity inside each set). -/
def xidOccurrences (xid : Nat) (s : Store) : Nat :=
  (s.map (fun pv => (pv.2.filter (fun w => w.window_xid == xid)).length)).sum

/-- Whether a run outcome is an actually returned status (success or
error), as opposed to a panic or an indefinite block. -/
def isReturnedStatus : RunOutcome → Bool
  | .ok _ => true
  | .err _ => true
  | .panicked _ => false
  | .blocked => false

/-- An environment in which the desktop-index exchange for every window
errors while the three other exchanges succeed. -/
def envDesktopFail : X11Env :=
  ⟨fun _ => some "term", fun _ => none, some ["one"], fun _ => some [100]⟩

/-- An environment whose client-identification query answers every window
with an empty id list (all other exchanges succeed). -/
def envNoClientIds : X11Env :=
  ⟨fun _ => some "term", fun _ => some 0, some ["one"], fun _ => some []⟩

/-- An environment whose client-identification query answers window 7 with
the single pid 321. -/
def envClientIdOk : X11Env :=
  ⟨fun _ => some "term", fun _ => some 0, some ["one"],
   fun w => if w = 7 then some [321] else none⟩

/-! ## Helper lemmas about the association-list store -/

theorem storeGet_storeModify_self (p : ProcessInfo)
    (f : List WindowInfo → List WindowInfo) (s : Store) :
    storeGet p (storeModify p f s) = (storeGet p s).map f := by
  induction s with
  | nil => rfl
  | cons kv rest ih =>
      obtain ⟨k₁, v⟩ := kv
      by_cases h : k₁ = p
      · simp [storeModify, storeGet, h]
      · simp [storeModify, storeGet, h, ih]

theorem storeGet_storeModify_ne (p q : ProcessInfo)
    (f : List WindowInfo → List WindowInfo) (s : Store) (h : q ≠ p) :
    storeGet q (storeModify p f s) = storeGet q s := by
  induction s with
  | nil => rfl
  | cons kv rest ih =>
      obtain ⟨k₁, v⟩ := kv
      by_cases h₁ : k₁ = p
      · subst h₁
        have hne : ¬(k₁ = q) := fun hq => h hq.symm
        simp [storeModify, storeGet, hne]
      · simp only [storeModify, if_neg h₁, storeGet]
        rw [ih]

theorem storeGet_storeRemoveKey_ne (p q : ProcessInfo) (s : Store)
    (h : q ≠ p) :
    storeGet q (storeRemoveKey p s) = storeGet q s := by
  induction s with
  | nil => rfl
  | cons kv rest ih =>
      obtain ⟨k₁, v⟩ := kv
      by_cases h₁ : k₁ = p
      · subst h₁
        have hne : ¬(k₁ = q) := fun hq => h hq.symm
        simp [storeRemoveKey, storeGet, hne]
      · simp only [storeRemoveKey, if_neg h₁, storeGet]
        rw [ih]

theorem keys_storeModify (p : ProcessInfo)
    (f : List WindowInfo → List WindowInfo) (s : Store) :
    (storeModify p f s).map Prod.fst = s.map Prod.fst := by
  induction s with
  | nil => rfl
  | cons kv rest ih =>
      obtain ⟨k₁, v⟩ := kv
      by_cases h : k₁ = p
      · simp [storeModify, h]
      · simp [storeModify, h, ih]

theorem keys_storeRemoveKey_sublist (p : ProcessInfo) (s : Store) :
    ((storeRemoveKey p s).map Prod.fst).Sublist (s.map Prod.fst) := by
  induction s with
  | nil => simp [storeRemoveKey]
  | cons kv rest ih =>
      obtain ⟨k₁, v⟩ := kv
      by_cases h : k₁ = p
      · simp only [storeRemoveKey, if_pos h, List.map_cons]
        exact (List.sublist_cons_self _ _)
      · simp only [storeRemoveKey, if_neg h, List.map_cons]
        exact ih.cons₂ _

theorem storeGet_eq_none_of_not_key (p : ProcessInfo) (s : Store)
    (h : p ∉ s.map Prod.fst) : storeGet p s = none := by
  induction s with
  | nil => rfl
  | cons kv rest ih =>
      obtain ⟨k₁, v⟩ := kv
      simp only [List.map_cons, List.mem_cons] at h
      push_neg at h
      have hne : ¬(k₁ = p) := fun he => h.1 he.symm
      simp only [storeGet, if_neg hne]
      exact ih h.2

theorem storeGet_storeRemoveKey_self (p : ProcessInfo) (s : Store)
    (hnd : (s.map Prod.fst).Nodup) :
    storeGet p (storeRemoveKey p s) = none := by
  induction s with
  | nil => rfl
  | cons kv rest ih =>
      obtain ⟨k₁, v⟩ := kv
      simp only [List.map_cons, List.nodup_cons] at hnd
      by_cases h : k₁ = p
      · subst h
        simp only [storeRemoveKey, if_pos rfl]
        exact storeGet_eq_none_of_not_key _ _ hnd.1
      · simp only [storeRemoveKey, if_neg h, storeGet, if_neg h]
        exact ih hnd.2

theorem mem_storeModify (p : ProcessInfo)
    (f : List WindowInfo → List WindowInfo) (s : Store)
    (pv : ProcessInfo × List WindowInfo) :
    pv ∈ storeModify p f s → pv ∈ s ∨ ∃ v, (p, v) ∈ s ∧ pv = (p, f v) := by
  induction s with
  | nil =>
      intro hm
      simp [storeModify] at hm
  | cons kv rest ih =>
      intro hm
      obtain ⟨k₁, v₁⟩ := kv
      by_cases h : k₁ = p
      · subst h
        simp only [storeModify, List.mem_cons, eq_self_iff_true, if_true] at hm
        rcases hm with hm | hm
        · exact Or.inr ⟨v₁, List.mem_cons_self _ _, hm⟩
        · exact Or.inl (List.mem_cons_of_mem _ hm)
      · simp only [storeModify, if_neg h, List.mem_cons] at hm
        rcases hm with hm | hm
        · exact Or.inl (hm ▸ List.mem_cons_self _ _)
        · rcases ih hm with hin | ⟨v, hv, he⟩
          · exact Or.inl (List.mem_cons_of_mem _ hin)
          · exact Or.inr ⟨v, List.mem_cons_of_mem _ hv, he⟩

theorem mem_storeRemoveKey_storeModify (p : ProcessInfo)
    (f : List WindowInfo → List WindowInfo) (s : Store)
    (pv : ProcessInfo × List WindowInfo) :
    pv ∈ storeRemoveKey p (storeModify p f s) → pv ∈ s := by
  induction s with
  | nil =>
      intro hm
      simp [storeModify, storeRemoveKey] at hm
  | cons kv rest ih =>
      intro hm
      obtain ⟨k₁, v₁⟩ := kv
      by_cases h : k₁ = p
      · simp only [storeModify, if_pos h, storeRemoveKey, if_pos h] at hm
        exact List.mem_cons_of_mem _ hm
      · simp only [storeModify, if_neg h, storeRemoveKey, if_neg h,
          List.mem_cons] at hm
        rcases hm with hm | hm
        · exact hm ▸ List.mem_cons_self _ _
        · exact List.mem_cons_of_mem _ (ih hm)

theorem storeGet_eq_some_mem (p : ProcessInfo) (v : List WindowInfo)
    (s : Store) : storeGet p s = some v → (p, v) ∈ s := by
  induction s with
  | nil =>
      intro h
      simp [storeGet] at h
  | cons kv rest ih =>
      intro h
      obtain ⟨k₁, v₁⟩ := kv
      by_cases h₁ : k₁ = p
      · subst h₁
        simp only [storeGet, eq_self_iff_true, if_true, Option.some.injEq] at h
        subst h
        exact List.mem_cons_self _ _
      · simp only [storeGet, if_neg h₁] at h
        exact List.mem_cons_of_mem _ (ih h)

theorem storeGet_none_not_key (p : ProcessInfo) (s : Store)
    (h : storeGet p s = none) : p ∉ s.map Prod.fst := by
  induction s with
  | nil => simp
  | cons kv rest ih =>
      obtain ⟨k₁, v₁⟩ := kv
      by_cases h₁ : k₁ = p
      · simp [storeGet, h₁] at h
      · simp only [storeGet, if_neg h₁] at h
        simp only [List.map_cons, List.mem_cons]
        rintro (he | hm)
        · exact h₁ he.symm
        · exact ih h hm

theorem hsInsert_ne_nil (w : WindowInfo) (s : List WindowInfo) :
    hsInsert w s ≠ [] := by
  unfold hsInsert
  by_cases h : w ∈ s
  · simp only [if_pos h]
    exact List.ne_nil_of_mem h
  · simp [if_neg h]

theorem hsInsert_nodup (w : WindowInfo) (s : List WindowInfo)
    (h : s.Nodup) : (hsInsert w s).Nodup := by
  unfold hsInsert
  by_cases hm : w ∈ s
  · simpa [if_pos hm] using h
  · simpa [if_neg hm, List.nodup_cons] using ⟨hm, h⟩

theorem mem_hsInsert_self (w : WindowInfo) (s : List WindowInfo) :
    w ∈ hsInsert w s := by
  unfold hsInsert
  by_cases hm : w ∈ s
  · simpa [if_pos hm] using hm
  · simp [if_neg hm]

theorem hsInsert_of_mem (w : WindowInfo) (s : List WindowInfo)
    (h : w ∈ s) : hsInsert w s = s := by
  simp [hsInsert, if_pos h]

/-! ## Invariant machinery for reachable stores -/

/-- Insert preserves "no entry has an empty window set". -/
theorem noEmpty_storeInsert (w : WindowInfo) (p : ProcessInfo) (s : Store)
    (hs : ∀ pv ∈ s, pv.2 ≠ []) :
    ∀ pv ∈ storeInsert w p s, pv.2 ≠ [] := by
  intro pv hm
  unfold storeInsert at hm
  cases hget : storeGet p s with
  | some v =>
      rw [hget] at hm
      rcases mem_storeModify _ _ _ _ hm with hin | ⟨v₁, _, he⟩
      · exact hs pv hin
      · rw [he]
        exact hsInsert_ne_nil _ _
  | none =>
      rw [hget] at hm
      rcases List.mem_cons.mp hm with he | hin
      · rw [he]
        simp
      · exact hs pv hin

/-- Remove preserves "no entry has an empty window set". -/
theorem noEmpty_storeRemove (rid : Nat) (p : ProcessInfo) (s : Store)
    (hs : ∀ pv ∈ s, pv.2 ≠ []) :
    ∀ pv ∈ storeRemove rid p s, pv.2 ≠ [] := by
  intro pv hm
  unfold storeRemove at hm
  cases hget : storeGet p s with
  | some ws =>
      rw [hget] at hm
      simp only at hm
      by_cases hr :
          (ws.filter (fun window_info => window_info.window_xid != rid)).isEmpty
      · rw [if_pos hr] at hm
        exact hs pv (mem_storeRemoveKey_storeModify _ _ _ _ hm)
      · rw [if_neg hr] at hm
        rcases mem_storeModify _ _ _ _ hm with hin | ⟨v₁, _, he⟩
        · exact hs pv hin
        · rw [he]
          intro hnil
          simp only at hnil
          rw [hnil] at hr
          exact hr rfl
  | none =>
      rw [hget] at hm
      exact hs pv hm

/-- Every store reachable from the empty store has no empty window set. -/
theorem noEmpty_runOps (ops : List StoreOp) :
    ∀ pv ∈ runOps ops, pv.2 ≠ [] := by
  suffices hstep : ∀ (s : Store), (∀ pv ∈ s, pv.2 ≠ []) →
      ∀ pv ∈ ops.foldl applyOp s, pv.2 ≠ [] by
    exact hstep [] (by simp)
  induction ops with
  | nil =>
      intro s hs
      simpa using hs
  | cons op rest ih =>
      intro s hs
      simp only [List.foldl_cons]
      refine ih (applyOp s op) ?_
      cases op with
      | ins table x =>
          simp only [applyOp, pwiInsert]
          cases table x.process_id with
          | some cmdline => exact noEmpty_storeInsert _ _ _ hs
          | none => exact hs
      | rem table x =>
          simp only [applyOp, pwiRemove]
          cases table x.process_id with
          | some cmdline => exact noEmpty_storeRemove _ _ _ hs
          | none => exact hs

/-- Insert preserves key-uniqueness and duplicate-freedom of each set. -/
theorem wf_storeInsert (w : WindowInfo) (p : ProcessInfo) (s : Store)
    (hk : (s.map Prod.fst).Nodup) (hv : ∀ pv ∈ s, pv.2.Nodup) :
    ((storeInsert w p s).map Prod.fst).Nodup ∧
      ∀ pv ∈ storeInsert w p s, pv.2.Nodup := by
  unfold storeInsert
  cases hget : storeGet p s with
  | some v =>
      refine ⟨by rw [keys_storeModify]; exact hk, ?_⟩
      intro pv hm
      rcases mem_storeModify _ _ _ _ hm with hin | ⟨v₁, hv₁, he⟩
      · exact hv pv hin
      · rw [he]
        exact hsInsert_nodup _ _ (hv _ hv₁)
  | none =>
      refine ⟨?_, ?_⟩
      · simp only [List.map_cons, List.nodup_cons]
        exact ⟨storeGet_none_not_key _ _ hget, hk⟩
      · intro pv hm
        rcases List.mem_cons.mp hm with he | hin
        · rw [he]
          simp
        · exact hv pv hin

/-- Unfolding equation for `storeRemove` when the key resolves. -/
theorem storeRemove_eq_of_get_some (rid : Nat) (p : ProcessInfo) (s : Store)
    (ws : List WindowInfo) (hget : storeGet p s = some ws) :
    storeRemove rid p s =
      (let retained :=
        ws.filter (fun window_info => window_info.window_xid != rid)
       let mutated := storeModify p (fun _ => retained) s
       if retained.isEmpty then storeRemoveKey p mutated else mutated) := by
  unfold storeRemove
  rw [hget]

/-- Unfolding equation for `storeRemove` when the key is absent. -/
theorem storeRemove_eq_of_get_none (rid : Nat) (p : ProcessInfo) (s : Store)
    (hget : storeGet p s = none) : storeRemove rid p s = s := by
  unfold storeRemove
  rw [hget]

/-- Remove preserves key-uniqueness and duplicate-freedom of each set. -/
theorem wf_storeRemove (rid : Nat) (p : ProcessInfo) (s : Store)
    (hk : (s.map Prod.fst).Nodup) (hv : ∀ pv ∈ s, pv.2.Nodup) :
    ((storeRemove rid p s).map Prod.fst).Nodup ∧
      ∀ pv ∈ storeRemove rid p s, pv.2.Nodup := by
  cases hget : storeGet p s with
  | some ws =>
      rw [storeRemove_eq_of_get_some rid p s ws hget]
      simp only
      by_cases hr :
          (ws.filter (fun window_info => window_info.window_xid != rid)).isEmpty
      · rw [if_pos hr]
        refine ⟨((keys_storeRemoveKey_sublist _ _).trans ?_).nodup hk, ?_⟩
        · rw [keys_storeModify]
        · intro pv hm
          exact hv pv (mem_storeRemoveKey_storeModify _ _ _ _ hm)
      · rw [if_neg hr]
        refine ⟨by rw [keys_storeModify]; exact hk, ?_⟩
        intro pv hm
        rcases mem_storeModify _ _ _ _ hm with hin | ⟨v₁, hv₁, he⟩
        · exact hv pv hin
        · rw [he]
          exact List.Nodup.filter _ (hv _ (storeGet_eq_some_mem _ _ _ hget))
  | none =>
      rw [storeRemove_eq_of_get_none rid p s hget]
      exact ⟨hk, hv⟩

/-- Every store reachable from the empty store has duplicate-free keys and
duplicate-free window sets. -/
theorem wf_runOps (ops : List StoreOp) :
    ((runOps ops).map Prod.fst).Nodup ∧ ∀ pv ∈ runOps ops, pv.2.Nodup := by
  suffices hstep : ∀ (s : Store), (s.map Prod.fst).Nodup →
      (∀ pv ∈ s, pv.2.Nodup) →
      ((ops.foldl applyOp s).map Prod.fst).Nodup ∧
        ∀ pv ∈ ops.foldl applyOp s, pv.2.Nodup by
    exact hstep [] (by simp) (by simp)
  induction ops with
  | nil =>
      intro s hk hv
      exact ⟨hk, hv⟩
  | cons op rest ih =>
      intro s hk hv
      simp only [List.foldl_cons]
      cases op with
      | ins table x =>
          simp only [applyOp, pwiInsert]
          cases table x.process_id with
          | some cmdline =>
              exact ih _ (wf_storeInsert _ _ _ hk hv).1 (wf_storeInsert _ _ _ hk hv).2
          | none => exact ih _ hk hv
      | rem table x =>
          simp only [applyOp, pwiRemove]
          cases table x.process_id with
          | some cmdline =>
              exact ih _ (wf_storeRemove _ _ _ hk hv).1 (wf_storeRemove _ _ _ hk hv).2
          | none => exact ih _ hk hv

/-! ## Claim theorems -/

/-- Claim C1: for every sequence of completed insert and remove operations
starting from the empty store, a `ProcessInfo` key is present in the
association store iff its window set is non-empty: insert only creates
entries together with at least one window record, and a remove that
empties a process's window set deletes that process's entry in the same
operation, so no key ever maps to an empty set. -/
theorem reachable_store_no_empty_sets (ops : List StoreOp)
    (p : ProcessInfo) (ws : List WindowInfo)
    (h : storeGet p (runOps ops) = some ws) : ws ≠ [] :=
  noEmpty_runOps ops (p, ws) (storeGet_eq_some_mem _ _ _ h)

/-- Claim C2, counterexample: inserting resource id 1 twice for the same
process — first with display name "a", then with display name "b" — makes
resource id 1 occur twice inside that process's window set: `insert` keys
records by structural equality over all four fields and never checks
resource-id uniqueness, so the claimed at-most-once invariant fails. -/
theorem no_double_ownership_counterexample :
    xidOccurrences 1
        (runOps
          [.ins (fun p => if p = 100 then some "app" else none) ⟨1, "a", 0, "d", 100⟩,
           .ins (fun p => if p = 100 then some "app" else none) ⟨1, "b", 0, "d", 100⟩]) = 2 ∧
    ¬(xidOccurrences 1
        (runOps
          [.ins (fun p => if p = 100 then some "app" else none) ⟨1, "a", 0, "d", 100⟩,
           .ins (fun p => if p = 100 then some "app" else none) ⟨1, "b", 0, "d", 100⟩]) ≤ 1) := by
  constructor
  · decide
  · decide

/-- Claim C2 as amended: in every store state reachable by any interleaving
of insert and remove operations, the key list is duplicate-free (at most
one entry per process identity) and every window set is duplicate-free —
a full window record (all four fields) appears at most once within a given
entry's set.  No cross-entry uniqueness holds: a resource id re-inserted
with different display-name, desktop-index or desktop-name fields creates
an additional record in the same set rather than replacing the old one,
and a record inserted under a differently-resolved process identity lands
in a separate entry. -/
theorem reachable_store_records_unique (ops : List StoreOp)
    (pv : ProcessInfo × List WindowInfo) (h : pv ∈ runOps ops) :
    ((runOps ops).map Prod.fst).Nodup ∧ pv.2.Nodup :=
  ⟨(wf_runOps ops).1, (wf_runOps ops).2 pv h⟩

/-- Witness for the amended C2 at the counterexample trace: the entry
produced by the two inserts of resource id 1 holds two structurally
distinct records, each exactly once, under duplicate-free keys. -/
theorem reachable_store_records_unique_witness :
    ((⟨"app", 100⟩, [⟨"b", 1, "d", 0⟩, ⟨"a", 1, "d", 0⟩]) :
        ProcessInfo × List WindowInfo) ∈
      runOps
        [.ins (fun p => if p = 100 then some "app" else none) ⟨1, "a", 0, "d", 100⟩,
         .ins (fun p => if p = 100 then some "app" else none) ⟨1, "b", 0, "d", 100⟩] ∧
    (((runOps
        [.ins (fun p => if p = 100 then some "app" else none) ⟨1, "a", 0, "d", 100⟩,
         .ins (fun p => if p = 100 then some "app" else none) ⟨1, "b", 0, "d", 100⟩]).map
          Prod.fst).Nodup ∧
      ([⟨"b", 1, "d", 0⟩, ⟨"a", 1, "d", 0⟩] : List WindowInfo).Nodup) :=
  ⟨by decide,
   reachable_store_records_unique
     [.ins (fun p => if p = 100 then some "app" else none) ⟨1, "a", 0, "d", 100⟩,
      .ins (fun p => if p = 100 then some "app" else none) ⟨1, "b", 0, "d", 100⟩]
     (⟨"app", 100⟩, [⟨"b", 1, "d", 0⟩, ⟨"a", 1, "d", 0⟩]) (by decide)⟩

/-- Claim C3, resolver half, evaluated at the failing input.  When the
`GetWmDesktop` exchange errors, `get_desktop_number_of_window` returns
`Err(WindowDesktopNumber)` and `get_window_information` propagates exactly
that error.  The caller half of the claim fails in the source:
`Application::set_window_information` (src/application.rs line 122) reads
`process_id` directly off the returned `Result` without matching on it, so
the code as written has no skip path for this failure (and does not
type-check). -/
theorem resolver_reports_desktop_index_unavailable :
    get_desktop_number_of_window envDesktopFail 5 =
      .error ⟨.WindowDesktopNumber⟩ ∧
    get_window_information envDesktopFail 5 = .err ⟨.WindowDesktopNumber⟩ :=
  ⟨rfl, rfl⟩

/-- Claim C4: when the freshly refreshed process-table snapshot has no entry
for the window's owning pid, the process-identity resolution yields `none`
and neither `insert` nor `remove` mutates the store: both return it
unchanged, and no error is raised (both functions are total). -/
theorem missing_process_skips (table : ProcTable)
    (x : X11WindowInformation) (store : Store)
    (h : table x.process_id = none) :
    pwiInsert table x store = store ∧ pwiRemove table x store = store := by
  unfold pwiInsert pwiRemove
  rw [h]
  exact ⟨rfl, rfl⟩

/-- Witness for C4: pid 42 is absent from the empty process table, and both
operations leave a concrete one-entry store untouched. -/
theorem missing_process_skips_witness :
    (fun _ => (none : Option String))
        ((⟨5, "w", 0, "d", 42⟩ : X11WindowInformation).process_id) = none ∧
    (pwiInsert (fun _ => none) ⟨5, "w", 0, "d", 42⟩
          [(⟨"app", 100⟩, [⟨"a", 1, "d", 0⟩])] =
        [(⟨"app", 100⟩, [⟨"a", 1, "d", 0⟩])] ∧
      pwiRemove (fun _ => none) ⟨5, "w", 0, "d", 42⟩
          [(⟨"app", 100⟩, [⟨"a", 1, "d", 0⟩])] =
        [(⟨"app", 100⟩, [⟨"a", 1, "d", 0⟩])]) :=
  ⟨rfl, missing_process_skips (fun _ => none) ⟨5, "w", 0, "d", 42⟩
    [(⟨"app", 100⟩, [⟨"a", 1, "d", 0⟩])] rfl⟩

theorem storeModify_storeModify (p : ProcessInfo)
    (f g : List WindowInfo → List WindowInfo) (s : Store) :
    storeModify p f (storeModify p g s) = storeModify p (fun v => f (g v)) s := by
  induction s with
  | nil => rfl
  | cons kv rest ih =>
      obtain ⟨k₁, v⟩ := kv
      by_cases h : k₁ = p
      · simp [storeModify, h]
      · simp [storeModify, h, ih]

theorem storeModify_congr (p : ProcessInfo)
    (f g : List WindowInfo → List WindowInfo) (v : List WindowInfo)
    (s : Store) (hget : storeGet p s = some v) (hfg : f v = g v) :
    storeModify p f s = storeModify p g s := by
  induction s with
  | nil => rfl
  | cons kv rest ih =>
      obtain ⟨k₁, v₁⟩ := kv
      by_cases h : k₁ = p
      · subst h
        simp only [storeGet, eq_self_iff_true, if_true, Option.some.injEq] at hget
        subst hget
        simp [storeModify, hfg]
      · simp only [storeGet, if_neg h] at hget
        simp [storeModify, h, ih hget]

/-- Claim C6: insert is idempotent: for every store state, window record and
process identity, performing the insert twice in succession leaves the
store exactly as after performing it once — both at the level of the inner
store operation and at the level of `ProcessesWindowsInfo::insert` run
twice against the same process-table snapshot. -/
theorem insert_idempotent (w : WindowInfo) (p : ProcessInfo)
    (table : ProcTable) (x : X11WindowInformation) (store : Store) :
    storeInsert w p (storeInsert w p store) = storeInsert w p store ∧
    pwiInsert table x (pwiInsert table x store) = pwiInsert table x store := by
  have hcore : ∀ (w₁ : WindowInfo) (p₁ : ProcessInfo) (s : Store),
      storeInsert w₁ p₁ (storeInsert w₁ p₁ s) = storeInsert w₁ p₁ s := by
    intro w₁ p₁ s
    cases hget : storeGet p₁ s with
    | none =>
        have h₁ : storeInsert w₁ p₁ s = (p₁, [w₁]) :: s := by
          unfold storeInsert
          rw [hget]
        rw [h₁]
        unfold storeInsert
        have h₂ : storeGet p₁ ((p₁, [w₁]) :: s) = some [w₁] := by
          simp [storeGet]
        rw [h₂]
        have h₃ : hsInsert w₁ [w₁] = [w₁] :=
          hsInsert_of_mem _ _ (List.mem_singleton.mpr rfl)
        simp [storeModify, h₃]
    | some v =>
        have h₁ : storeInsert w₁ p₁ s =
            storeModify p₁ (fun w_infos => hsInsert w₁ w_infos) s := by
          unfold storeInsert
          rw [hget]
        rw [h₁]
        unfold storeInsert
        have h₂ : storeGet p₁
            (storeModify p₁ (fun w_infos => hsInsert w₁ w_infos) s) =
            some (hsInsert w₁ v) := by
          rw [storeGet_storeModify_self, hget]
          rfl
        rw [h₂, storeModify_storeModify]
        exact storeModify_congr p₁ _ _ v s hget
          (hsInsert_of_mem _ _ (mem_hsInsert_self w₁ v))
  refine ⟨hcore w p store, ?_⟩
  unfold pwiInsert
  cases table x.process_id with
  | some cmdline => exact hcore _ _ _
  | none => rfl

/-- Claim C7: the keep-running flag is read once per iteration at the loop
boundary, before the blocking wait: when the flag has been flipped to
false, delivery of one more event makes the loop process that event, then
observe the flag at the next boundary and return the success status
`Ok(0)`, with the final store exactly the store produced by that one event
— no further store mutation after the observation, and no further events
consumed (`flags`/`waits` are arbitrary leftovers).  A boundary read of
`false` terminates immediately with `Ok(0)` and an untouched store. -/
theorem shutdown_observed_at_loop_boundary
    (setw delw : Nat → Store → Store) (e : XEvent)
    (flags : List Bool) (waits : List WaitResult) (store : Store) :
    runLoop setw delw (true :: false :: flags) (.event e :: waits) store =
      (.ok 0, handleEvent setw delw store e) ∧
    runLoop setw delw (false :: flags) waits store = (.ok 0, store) :=
  ⟨rfl, rfl⟩

/-- Claim C8: `remove` only affects the named window in the named process's
entry: any other process's entry is read back unchanged; the named
process's set becomes exactly the records whose resource id differs from
the given one (the entry disappearing when none remain); and when the
process key is absent, the whole store is returned unchanged. -/
theorem remove_frame (rid : Nat) (p q : ProcessInfo)
    (ws : List WindowInfo) (store : Store)
    (hwf : (store.map Prod.fst).Nodup) :
    (q ≠ p → storeGet q (storeRemove rid p store) = storeGet q store) ∧
    (storeGet p store = some ws →
      storeGet p (storeRemove rid p store) =
        (if (ws.filter (fun wi => wi.window_xid != rid)).isEmpty then none
         else some (ws.filter (fun wi => wi.window_xid != rid)))) ∧
    (storeGet p store = none → storeRemove rid p store = store) := by
  refine ⟨?_, ?_, ?_⟩
  · intro hq
    cases hget : storeGet p store with
    | none => rw [storeRemove_eq_of_get_none _ _ _ hget]
    | some ws₁ =>
        rw [storeRemove_eq_of_get_some _ _ _ _ hget]
        simp only
        by_cases hr :
            (ws₁.filter (fun window_info => window_info.window_xid != rid)).isEmpty
        · rw [if_pos hr, storeGet_storeRemoveKey_ne _ _ _ hq,
            storeGet_storeModify_ne _ _ _ _ hq]
        · rw [if_neg hr, storeGet_storeModify_ne _ _ _ _ hq]
  · intro hget
    rw [storeRemove_eq_of_get_some _ _ _ _ hget]
    simp only
    by_cases hr :
        (ws.filter (fun window_info => window_info.window_xid != rid)).isEmpty
    · rw [if_pos hr, if_pos hr]
      refine storeGet_storeRemoveKey_self _ _ ?_
      rw [keys_storeModify]
      exact hwf
    · rw [if_neg hr, if_neg hr, storeGet_storeModify_self, hget]
      rfl
  · intro hget
    exact storeRemove_eq_of_get_none _ _ _ hget

/-- Witness for C8 on a concrete two-process store: removing resource id 1
from the pid-100 process leaves the pid-200 entry readable unchanged,
shrinks the pid-100 set to the records with a different resource id, and
the absent-key clause holds vacuously. -/
theorem remove_frame_witness :
    (([(⟨"app", 100⟩, [⟨"a", 1, "d", 0⟩, ⟨"b", 2, "d", 0⟩]),
       (⟨"bash", 200⟩, [⟨"c", 3, "d", 0⟩])] : Store).map Prod.fst).Nodup ∧
    (((⟨"bash", 200⟩ : ProcessInfo) ≠ ⟨"app", 100⟩ →
        storeGet ⟨"bash", 200⟩
            (storeRemove 1 ⟨"app", 100⟩
              [(⟨"app", 100⟩, [⟨"a", 1, "d", 0⟩, ⟨"b", 2, "d", 0⟩]),
               (⟨"bash", 200⟩, [⟨"c", 3, "d", 0⟩])]) =
          storeGet ⟨"bash", 200⟩
            [(⟨"app", 100⟩, [⟨"a", 1, "d", 0⟩, ⟨"b", 2, "d", 0⟩]),
             (⟨"bash", 200⟩, [⟨"c", 3, "d", 0⟩])]) ∧
      (storeGet ⟨"app", 100⟩
          [(⟨"app", 100⟩, [⟨"a", 1, "d", 0⟩, ⟨"b", 2, "d", 0⟩]),
           (⟨"bash", 200⟩, [⟨"c", 3, "d", 0⟩])] =
          some [⟨"a", 1, "d", 0⟩, ⟨"b", 2, "d", 0⟩] →
        storeGet ⟨"app", 100⟩
            (storeRemove 1 ⟨"app", 100⟩
              [(⟨"app", 100⟩, [⟨"a", 1, "d", 0⟩, ⟨"b", 2, "d", 0⟩]),
               (⟨"bash", 200⟩, [⟨"c", 3, "d", 0⟩])]) =
          (if (([⟨"a", 1, "d", 0⟩, ⟨"b", 2, "d", 0⟩] : List WindowInfo).filter
                (fun wi => wi.window_xid != 1)).isEmpty then none
           else some (([⟨"a", 1, "d", 0⟩, ⟨"b", 2, "d", 0⟩] : List WindowInfo).filter
                (fun wi => wi.window_xid != 1)))) ∧
      (storeGet ⟨"app", 100⟩
          [(⟨"app", 100⟩, [⟨"a", 1, "d", 0⟩, ⟨"b", 2, "d", 0⟩]),
           (⟨"bash", 200⟩, [⟨"c", 3, "d", 0⟩])] = none →
        storeRemove 1 ⟨"app", 100⟩
            [(⟨"app", 100⟩, [⟨"a", 1, "d", 0⟩, ⟨"b", 2, "d", 0⟩]),
             (⟨"bash", 200⟩, [⟨"c", 3, "d", 0⟩])] =
          [(⟨"app", 100⟩, [⟨"a", 1, "d", 0⟩, ⟨"b", 2, "d", 0⟩]),
           (⟨"bash", 200⟩, [⟨"c", 3, "d", 0⟩])])) :=
  ⟨by decide,
   remove_frame 1 ⟨"app", 100⟩ ⟨"bash", 200⟩
     [⟨"a", 1, "d", 0⟩, ⟨"b", 2, "d", 0⟩]
     [(⟨"app", 100⟩, [⟨"a", 1, "d", 0⟩, ⟨"b", 2, "d", 0⟩]),
      (⟨"bash", 200⟩, [⟨"c", 3, "d", 0⟩])] (by decide)⟩

/-- Claim C5, counterexample: when the windowing system does not advertise
`_NET_CLIENT_LIST` (the interned atom is `ATOM_NONE`), `Application::run`
does not return an unsupported-environment status with its own exit code:
the `assert!` aborts the thread with the panic "EWMH not supported", which
is neither a success status nor a fatal error status. -/
theorem run_unsupported_environment_counterexample :
    (Application.run (fun _ s => s) (fun _ s => s) (some ATOM_NONE)
        [] [] [] []).1 = .panicked "EWMH not supported" ∧
    isReturnedStatus
        (Application.run (fun _ s => s) (fun _ s => s) (some ATOM_NONE)
          [] [] [] []).1 = false :=
  ⟨rfl, rfl⟩

/-- Every outcome the event loop can produce: success `Ok(0)`, the
connection-failure status with retcode 10, the protocol-failure status
with retcode 11, or (model artifact) an indefinite block. -/
theorem runLoop_outcomes (setw delw : Nat → Store → Store)
    (flags : List Bool) (waits : List WaitResult) (store : Store) :
    (runLoop setw delw flags waits store).1 = .ok 0 ∨
    (runLoop setw delw flags waits store).1 = .err ⟨.ConnectionError, 10⟩ ∨
    (runLoop setw delw flags waits store).1 = .err ⟨.ProtocolError, 11⟩ ∨
    (runLoop setw delw flags waits store).1 = .blocked := by
  induction flags generalizing waits store with
  | nil => exact Or.inr (Or.inr (Or.inr rfl))
  | cons b flags ih =>
      cases b with
      | false => exact Or.inl rfl
      | true =>
          cases waits with
          | nil => exact Or.inr (Or.inr (Or.inr rfl))
          | cons w waits =>
              cases w with
              | connectionError => exact Or.inr (Or.inl rfl)
              | protocolError => exact Or.inr (Or.inr (Or.inl rfl))
              | event e => exact ih waits (handleEvent setw delw store e)

/-- Unfolding equation for `Application.run` when the atom reply arrives. -/
theorem run_eq_of_atom (setw delw : Nat → Store → Store) (atom : Nat)
    (clients : List Nat) (flags : List Bool) (waits : List WaitResult)
    (store : Store) :
    Application.run setw delw (some atom) clients flags waits store =
      (if atom = ATOM_NONE then (.panicked "EWMH not supported", store)
       else runLoop setw delw flags waits
         (clients.foldl (fun s client => setw client s) store)) := rfl

/-- Claim C5 as amended: `Application::run` returns either the success status
`Ok(0)` or one of two mutually distinct fatal statuses with distinct
non-zero exit codes — connection-level failure (retcode 10) and
protocol-level failure (retcode 11); the unsupported-environment check
does not produce a returned status but aborts via the assertion panic
"EWMH not supported" exactly when the interned window-list atom is
`ATOM_NONE` (the model adds `panicked`/`blocked` outcomes for the
`unwrap()` of the atom reply and for exhausted input lists). -/
theorem run_statuses (setw delw : Nat → Store → Store)
    (atomReply : Option Nat) (clients : List Nat) (flags : List Bool)
    (waits : List WaitResult) (store : Store) :
    ((Application.run setw delw atomReply clients flags waits store).1 = .ok 0 ∨
     (Application.run setw delw atomReply clients flags waits store).1 =
        .err ⟨.ConnectionError, 10⟩ ∨
     (Application.run setw delw atomReply clients flags waits store).1 =
        .err ⟨.ProtocolError, 11⟩ ∨
     (Application.run setw delw atomReply clients flags waits store).1 =
        .panicked "called unwrap on an Err value" ∨
     (Application.run setw delw atomReply clients flags waits store).1 =
        .panicked "EWMH not supported" ∨
     (Application.run setw delw atomReply clients flags waits store).1 =
        .blocked) ∧
    (atomReply = some ATOM_NONE →
      (Application.run setw delw atomReply clients flags waits store).1 =
        .panicked "EWMH not supported") ∧
    ((⟨.ConnectionError, 10⟩ : ApplicationError) ≠ ⟨.ProtocolError, 11⟩ ∧
      (10 : Int) ≠ 0 ∧ (11 : Int) ≠ 0) := by
  refine ⟨?_, ?_, by decide⟩
  · cases atomReply with
    | none =>
        exact Or.inr (Or.inr (Or.inr (Or.inl rfl)))
    | some atom =>
        by_cases ha : atom = ATOM_NONE
        · subst ha
          exact Or.inr (Or.inr (Or.inr (Or.inr (Or.inl rfl))))
        · have hred :
              Application.run setw delw (some atom) clients flags waits store =
                runLoop setw delw flags waits
                  (clients.foldl (fun s client => setw client s) store) := by
            rw [run_eq_of_atom, if_neg ha]
          rw [hred]
          rcases runLoop_outcomes setw delw flags waits
              (clients.foldl (fun s client => setw client s) store) with
            h | h | h | h
          · exact Or.inl h
          · exact Or.inr (Or.inl h)
          · exact Or.inr (Or.inr (Or.inl h))
          · exact Or.inr (Or.inr (Or.inr (Or.inr (Or.inr h))))
  · intro h
    subst h
    rfl

/-- Witness for the amended C5: with the atom interned as `ATOM_NONE`, the
classification holds and the unsupported-environment clause fires,
yielding the assertion panic. -/
theorem run_statuses_witness :
    ((Application.run (fun _ s => s) (fun _ s => s) (some ATOM_NONE)
        [7] [true] [.event .other] []).1 = .ok 0 ∨
     (Application.run (fun _ s => s) (fun _ s => s) (some ATOM_NONE)
        [7] [true] [.event .other] []).1 = .err ⟨.ConnectionError, 10⟩ ∨
     (Application.run (fun _ s => s) (fun _ s => s) (some ATOM_NONE)
        [7] [true] [.event .other] []).1 = .err ⟨.ProtocolError, 11⟩ ∨
     (Application.run (fun _ s => s) (fun _ s => s) (some ATOM_NONE)
        [7] [true] [.event .other] []).1 =
        .panicked "called unwrap on an Err value" ∨
     (Application.run (fun _ s => s) (fun _ s => s) (some ATOM_NONE)
        [7] [true] [.event .other] []).1 = .panicked "EWMH not supported" ∨
     (Application.run (fun _ s => s) (fun _ s => s) (some ATOM_NONE)
        [7] [true] [.event .other] []).1 = .blocked) ∧
    (some ATOM_NONE = some ATOM_NONE →
      (Application.run (fun _ s => s) (fun _ s => s) (some ATOM_NONE)
          [7] [true] [.event .other] []).1 = .panicked "EWMH not supported") ∧
    ((⟨.ConnectionError, 10⟩ : ApplicationError) ≠ ⟨.ProtocolError, 11⟩ ∧
      (10 : Int) ≠ 0 ∧ (11 : Int) ≠ 0) :=
  run_statuses (fun _ s => s) (fun _ s => s) (some ATOM_NONE)
    [7] [true] [.event .other] []

/-- Claim C9, counterexample: when the client-identification query returns no
process id, `get_process_id_of_local_client` does not skip: the
`ids().next().unwrap()` chain panics, aborting resolution — and with it
`get_window_information` — instead of completing defensively. -/
theorem client_id_missing_counterexample :
    get_process_id_of_local_client envNoClientIds 7 = .panicked ∧
    get_window_information envNoClientIds 7 = .panicked :=
  ⟨rfl, rfl⟩

/-- Claim C9 as amended: the client-identification lookup has no defensive
skip path: when the query returns at least one id, resolution completes
with the first id; when the reply errors or carries no id at all, the
implementation panics (`unwrap` of a missing value) rather than treating
the window as "skip". -/
theorem client_id_resolution (env : X11Env) (window pid : Nat)
    (rest : List Nat) :
    (env.clientIdsReply window = some (pid :: rest) →
      get_process_id_of_local_client env window = .ok pid) ∧
    (env.clientIdsReply window = some [] →
      get_process_id_of_local_client env window = .panicked) ∧
    (env.clientIdsReply window = none →
      get_process_id_of_local_client env window = .panicked) := by
  refine ⟨?_, ?_, ?_⟩ <;> intro h <;>
    simp [get_process_id_of_local_client, h]

/-- Witness for the amended C9: window 7 resolves to pid 321, and window 8
(whose reply errors) panics. -/
theorem client_id_resolution_witness :
    (envClientIdOk.clientIdsReply 7 = some [321] →
      get_process_id_of_local_client envClientIdOk 7 = .ok 321) ∧
    (envClientIdOk.clientIdsReply 7 = some [] →
      get_process_id_of_local_client envClientIdOk 7 = .panicked) ∧
    (envClientIdOk.clientIdsReply 7 = none →
      get_process_id_of_local_client envClientIdOk 7 = .panicked) :=
  client_id_resolution envClientIdOk 7 321 []

/-- Claim C10, counterexample: success of the display-name, desktop-name-list
and client-id exchanges is not enough for the resolver to be total: in
`envNoClientIds` all four exchanges succeed (desktop index 0, names list
`["one"]`, client-id reply present but empty), yet `get_window_information`
panics on the empty id list instead of returning a result. -/
theorem resolver_totality_counterexample :
    envNoClientIds.wmNameReply 7 = some "term" ∧
    envNoClientIds.wmDesktopReply 7 = some 0 ∧
    envNoClientIds.desktopNamesReply = some ["one"] ∧
    envNoClientIds.clientIdsReply 7 = some [] ∧
    get_window_information envNoClientIds 7 = .panicked :=
  ⟨rfl, rfl, rfl, rfl, rfl⟩

/-- Claim C10 as amended: the resolver produces an error result exactly when
the desktop-index exchange fails (and that error is always
`WindowDesktopNumber`); a failure of the display-name exchange, of the
desktop-name-list exchange, or of the client-id exchange panics rather
than erroring or skipping; and the resolver is total — returns `ok` —
under the strengthened precondition that the three other exchanges
succeed, the desktop-name list is longer than the resolved desktop index,
and the client-id reply carries at least one id. -/
theorem resolver_error_classification (env : X11Env)
    (window desktop pid : Nat) (name : String) (names : List String)
    (rest : List Nat) :
    ((∃ e, get_window_information env window = .err e) ↔
      env.wmDesktopReply window = none) ∧
    (env.wmDesktopReply window = none →
      get_window_information env window = .err ⟨.WindowDesktopNumber⟩) ∧
    (env.wmDesktopReply window = some desktop →
      env.wmNameReply window = none →
      get_window_information env window = .panicked) ∧
    (env.wmDesktopReply window = some desktop →
      env.wmNameReply window = some name →
      env.desktopNamesReply = none →
      get_window_information env window = .panicked) ∧
    (env.wmDesktopReply window = some desktop →
      env.wmNameReply window = some name →
      env.desktopNamesReply = some names →
      desktop < names.length →
      env.clientIdsReply window = none →
      get_window_information env window = .panicked) ∧
    (env.wmDesktopReply window = some desktop →
      env.wmNameReply window = some name →
      env.desktopNamesReply = some names →
      desktop < names.length →
      env.clientIdsReply window = some (pid :: rest) →
      ∃ r, get_window_information env window = .ok r) := by
  refine ⟨⟨?_, ?_⟩, ?_, ?_, ?_, ?_, ?_⟩
  · rintro ⟨e, he⟩
    cases hd : env.wmDesktopReply window with
    | none => rfl
    | some d =>
        exfalso
        cases hn : env.wmNameReply window with
        | none =>
            simp [get_window_information, get_desktop_number_of_window,
              get_window_name, hd, hn] at he
        | some nm =>
            cases hdn : env.desktopNamesReply with
            | none =>
                simp [get_window_information, get_desktop_number_of_window,
                  get_window_name, get_desktop_name_of_window, hd, hn, hdn] at he
            | some names₁ =>
                by_cases hlen : d < names₁.length
                · cases hc : env.clientIdsReply window with
                  | none =>
                      simp [get_window_information, get_desktop_number_of_window,
                        get_window_name, get_desktop_name_of_window,
                        get_process_id_of_local_client, hd, hn, hdn, hc, hlen] at he
                  | some ids =>
                      cases ids with
                      | nil =>
                          simp [get_window_information,
                            get_desktop_number_of_window, get_window_name,
                            get_desktop_name_of_window,
                            get_process_id_of_local_client,
                            hd, hn, hdn, hc, hlen] at he
                      | cons i is =>
                          simp [get_window_information,
                            get_desktop_number_of_window, get_window_name,
                            get_desktop_name_of_window,
                            get_process_id_of_local_client,
                            hd, hn, hdn, hc, hlen] at he
                · simp [get_window_information, get_desktop_number_of_window,
                    get_window_name, get_desktop_name_of_window, hd, hn, hdn,
                    hlen] at he
  · intro hd
    exact ⟨⟨.WindowDesktopNumber⟩, by
      simp [get_window_information, get_desktop_number_of_window, hd]⟩
  · intro hd
    simp [get_window_information, get_desktop_number_of_window, hd]
  · intro hd hn
    simp [get_window_information, get_desktop_number_of_window,
      get_window_name, hd, hn]
  · intro hd hn hdn
    simp [get_window_information, get_desktop_number_of_window,
      get_window_name, get_desktop_name_of_window, hd, hn, hdn]
  · intro hd hn hdn hlen hc
    simp [get_window_information, get_desktop_number_of_window,
      get_window_name, get_desktop_name_of_window,
      get_process_id_of_local_client, hd, hn, hdn, hc, hlen]
  · intro hd hn hdn hlen hc
    refine ⟨⟨window, name, desktop, names.get ⟨desktop, hlen⟩, pid⟩, ?_⟩
    simp [get_window_information, get_desktop_number_of_window,
      get_window_name, get_desktop_name_of_window,
      get_process_id_of_local_client, hd, hn, hdn, hc, hlen]

/-- Witness for the amended C10: in `envClientIdOk` the desktop exchange
for window 7 succeeds, so no error result arises; and with all
strengthened preconditions met the resolver returns an `ok` result. -/
theorem resolver_error_classification_witness :
    ((∃ e, get_window_information envClientIdOk 7 = .err e) ↔
      envClientIdOk.wmDesktopReply 7 = none) ∧
    (envClientIdOk.wmDesktopReply 7 = none →
      get_window_information envClientIdOk 7 = .err ⟨.WindowDesktopNumber⟩) ∧
    (envClientIdOk.wmDesktopReply 7 = some 0 →
      envClientIdOk.wmNameReply 7 = none →
      get_window_information envClientIdOk 7 = .panicked) ∧
    (envClientIdOk.wmDesktopReply 7 = some 0 →
      envClientIdOk.wmNameReply 7 = some "term" →
      envClientIdOk.desktopNamesReply = none →
      get_window_information envClientIdOk 7 = .panicked) ∧
    (envClientIdOk.wmDesktopReply 7 = some 0 →
      envClientIdOk.wmNameReply 7 = some "term" →
      envClientIdOk.desktopNamesReply = some ["one"] →
      0 < (["one"] : List String).length →
      envClientIdOk.clientIdsReply 7 = none →
      get_window_information envClientIdOk 7 = .panicked) ∧
    (envClientIdOk.wmDesktopReply 7 = some 0 →
      envClientIdOk.wmNameReply 7 = some "term" →
      envClientIdOk.desktopNamesReply = some ["one"] →
      0 < (["one"] : List String).length →
      envClientIdOk.clientIdsReply 7 = some (321 :: []) →
      ∃ r, get_window_information envClientIdOk 7 = .ok r) :=
  resolver_error_classification envClientIdOk 7 0 321 "term" ["one"] []

/-- Witness for C1: after inserting window 1 for pid 100 and removing it
again, and then inserting window 2 for pid 200, the store maps the pid-200
process to the non-empty set `[window 2]`. -/
theorem reachable_store_no_empty_sets_witness :
    storeGet ⟨"bash", 200⟩
        (runOps
          [.ins (fun p => if p = 100 then some "app" else none) ⟨1, "a", 0, "d", 100⟩,
           .rem (fun p => if p = 100 then some "app" else none) ⟨1, "a", 0, "d", 100⟩,
           .ins (fun p => if p = 200 then some "bash" else none) ⟨2, "b", 0, "d", 200⟩]) =
      some [⟨"b", 2, "d", 0⟩] ∧
    ([⟨"b", 2, "d", 0⟩] : List WindowInfo) ≠ [] := by
  constructor
  · decide
  · exact reachable_store_no_empty_sets
      [.ins (fun p => if p = 100 then some "app" else none) ⟨1, "a", 0, "d", 100⟩,
       .rem (fun p => if p = 100 then some "app" else none) ⟨1, "a", 0, "d", 100⟩,
       .ins (fun p => if p = 200 then some "bash" else none) ⟨2, "b", 0, "d", 200⟩]
      ⟨"bash", 200⟩ [⟨"b", 2, "d", 0⟩] (by decide)
